import Mathlib

/-!
Shallow embedding of the Icecast URL-authentication module (`src/auth_url.c`).

Pure C strings are modelled as Lean `String`s (no embedded NUL), machine
integers as `Nat`/`Int` with explicit reductions modulo `2 ^ w` where the
source performs a cast, NULL-able pointers as `Option`, and the stateful
event flows as pure functions that thread the mutated structures explicitly
and additionally record a trace of config/transport actions in their order
of occurrence in the source.  The blocking `curl_easy_perform` call is
modelled by two parameters: its integer return code `res` (0 = CURLE_OK)
and the list of response header lines it hands, one by one, to the
registered header callback before returning.
-/

set_option autoImplicit false

namespace AuthUrl

/-- Result codes of the auth layer (`auth.h`): the module only ever
produces `AUTH_OK` and `AUTH_FAILED`. -/
inductive auth_result where
  | AUTH_UNDEFINED
  | AUTH_OK
  | AUTH_FAILED
  deriving DecidableEq, Repr

export auth_result (AUTH_UNDEFINED AUTH_OK AUTH_FAILED)

/-- The per-authenticator state `auth_url` (lines 69-80 of `auth_url.c`):
the four optional event URLs, the optional credentials, the expected
verdict header and its cached length.  The CURL handle and error buffer
carry no data relevant to the verified properties. -/
structure auth_url where
  addurl : Option String
  removeurl : Option String
  stream_start : Option String
  stream_end : Option String
  username : Option String
  password : Option String
  auth_header : String
  auth_header_len : Nat
  deriving DecidableEq, Repr

/-- The shared authenticator object `auth_t` (from `auth.h`): a reference
count and the module-private state. -/
structure auth_t where
  refcount : Nat
  state : auth_url
  deriving DecidableEq, Repr

/-- Connection metadata `connection_t`: numeric id (unsigned long), remote
address, and connection-start time (`time_t`, signed). -/
structure connection_t where
  id : Nat
  ip : String
  con_time : Int
  deriving DecidableEq, Repr

/-- The client `client_t`: credentials, connection, the user-agent request
header as exposed by `httpp_getvar` (`none` = header absent), the mutable
`authenticated` flag and the nullable back-reference to its authenticator. -/
structure client_t where
  username : String
  password : String
  con : connection_t
  user_agent : Option String
  authenticated : Bool
  auth : Option auth_t
  deriving DecidableEq, Repr

/-- The per-event context `auth_client`: mountpoint path and the associated
client (absent for stream-start/stream-end events). -/
structure auth_client where
  mount : String
  client : Option client_t
  deriving DecidableEq, Repr

/-- A mountpoint's configuration entry `mount_proxy`, restricted to the
field this module reads: its (nullable) authenticator. -/
structure mount_proxy where
  auth : Option auth_t
  deriving DecidableEq, Repr

/-- The global config snapshot `ice_config_t`, restricted to the fields
this module reads: hostname and the mountpoint table. -/
structure ice_config_t where
  hostname : String
  mounts : List (String × mount_proxy)
  deriving DecidableEq, Repr

/-- Modelled from the spec: the config provider's
`find_mount(view, path) -> MountInfo?` lookup (`config_find_mount` lives in
`cfgfile.c`, outside this module); returns the entry for the given
mountpoint path, or `none` when the mountpoint is absent. -/
def config_find_mount (config : ice_config_t) (mount : String) : Option mount_proxy :=
  (config.mounts.find? (fun p => p.1 = mount)).map Prod.snd

/-- Upper-case hexadecimal digit for a value below 16. -/
def hexDigit : Nat → Char
  | 0 => '0' | 1 => '1' | 2 => '2' | 3 => '3'
  | 4 => '4' | 5 => '5' | 6 => '6' | 7 => '7'
  | 8 => '8' | 9 => '9' | 10 => 'A' | 11 => 'B'
  | 12 => 'C' | 13 => 'D' | 14 => 'E' | _ => 'F'

/-- Modelled from the spec: the Escaper's unreserved-character allowlist
("letters, digits, and a small fixed punctuation set"); `util_url_escape`
lives in `util.c`, outside this module. -/
def isUrlSafe (c : Char) : Bool :=
  c.isAlpha || c.isDigit || c = '.' || c = '-' || c = '_'

/-- Percent-encoding of one byte-valued character. -/
def escapeChar (c : Char) : List Char :=
  if isUrlSafe c then [c]
  else
    let b := c.toNat % 256
    ['%', hexDigit (b / 16), hexDigit (b % 16)]

/-- Modelled from the spec: the Escaper (`util_url_escape` in `util.c`,
outside this module) percent-encodes every byte outside the unreserved
allowlist, leaving allowlisted bytes untouched. -/
def util_url_escape (s : String) : String :=
  String.mk (List.flatten (s.data.map escapeChar))

/-- C `strncasecmp(a, b, n) == 0` on NUL-free strings: the first `n`
characters agree case-insensitively, where running off the end of one
string but not the other within the first `n` positions is a mismatch
(the terminating NUL differs from any further character). -/
def strncaseeq : List Char → List Char → Nat → Bool
  | _, _, 0 => true
  | [], [], _ + 1 => true
  | [], _ :: _, _ + 1 => false
  | _ :: _, [], _ + 1 => false
  | a :: as, b :: bs, n + 1 => a.toLower = b.toLower && strncaseeq as bs n

/-- The C cast `(int)b` of an `unsigned` value `b < 2 ^ 32` (two's
complement reinterpretation). -/
def c_int_of_uint (b : Nat) : Int :=
  if b % 4294967296 < 2147483648 then ((b % 4294967296 : Nat) : Int)
  else ((b % 4294967296 : Nat) : Int) - 4294967296

/-- The C cast `(long unsigned)i` of a signed 64-bit value (reduction
modulo `2 ^ 64`). -/
def c_ulong (i : Int) : Nat :=
  (i % 18446744073709551616).toNat

/-- `snprintf` into a buffer of `n` bytes: the formatted string truncated
to at most `n - 1` characters (one byte is reserved for the NUL). -/
def snprintf_cap (n : Nat) (s : String) : String :=
  String.mk (s.data.take (n - 1))

/-- One observable action of an event flow, in source order: acquiring the
config snapshot (`config_get_config`), releasing it
(`config_release_config`), or issuing the blocking transport call
(`curl_easy_perform`) with its URL and POST body. -/
inductive Action where
  | acquireConfig
  | releaseConfig
  | transportCall (url : String) (post : String)
  deriving DecidableEq, Repr

/-- Trace discipline checker: `d` counts currently-held config snapshots;
every release matches an acquire, no snapshot is held when a transport
call is issued, and no snapshot is held at the end of the flow. -/
def checkTrace : Nat → List Action → Bool
  | d, [] => d = 0
  | d, Action.acquireConfig :: r => checkTrace (d + 1) r
  | d, Action.releaseConfig :: r => decide (0 < d) && checkTrace (d - 1) r
  | d, Action.transportCall _ _ :: r => decide (d = 0) && checkTrace d r

/-- A trace obeys the config-snapshot discipline. -/
def configSafe (t : List Action) : Bool :=
  checkTrace 0 t

/-- The header callback `handle_returned_header` (lines 95-110).
`ptr` is one response header line, `auth_user` the correlation handle
installed via `CURLOPT_WRITEHEADER`.  Dereferencing `client->auth` when it
is NULL is undefined (`none`).  Returns the updated event context and the
callback's return value `(int)(size * nmemb)`. -/
def handle_returned_header (size nmemb : Nat) (ptr : String)
    (auth_user : auth_client) : Option (auth_client × Int) :=
  let bytes := size * nmemb % 4294967296
  match auth_user.client with
  | none => some (auth_user, c_int_of_uint bytes)
  | some client =>
    match client.auth with
    | none => none
    | some auth =>
      let url := auth.state
      if strncaseeq ptr.data url.auth_header.data url.auth_header_len then
        some ({ auth_user with client := some { client with authenticated := true } },
              c_int_of_uint bytes)
      else
        some (auth_user, c_int_of_uint bytes)

/-- Delivery of the response header lines to the header callback, one call
per line (`size = 1`, `nmemb =` line length), as curl performs it during
`curl_easy_perform`. -/
def deliverHeaders : List String → auth_client → Option auth_client
  | [], au => some au
  | l :: ls, au =>
    match handle_returned_header 1 l.length l au with
    | none => none
    | some (au', _) => deliverHeaders ls au'

/-- Outcome of the add flow: result code, client state after the flow, the
POST body transmitted (`none` when no transport call was issued), and the
action trace. -/
structure AddOutcome where
  result : auth_result
  client : client_t
  post : Option String
  trace : List Action
  deriving DecidableEq, Repr

/-- The add flow `auth_addurl_client` (lines 162-221).  `res` is the
return code of `curl_easy_perform`, `headers` the response header lines it
delivers, `pp` the return value of the external `auth_postprocess_client`
collaborator.  Dereferencing the NULL client or NULL `client->auth` is
undefined (`none`). -/
def auth_addurl_client (auth_user : auth_client) (config : ice_config_t)
    (res : Nat) (headers : List String) (pp : Int) : Option AddOutcome :=
  match auth_user.client with
  | none => none
  | some client =>
  match client.auth with
  | none => none
  | some auth =>
  match auth.state.addurl with
  | none => some ⟨AUTH_OK, client, none, []⟩
  | some addurl =>
    let server := util_url_escape config.hostname
    let agent := client.user_agent.getD "-"
    let user_agent := util_url_escape agent
    let username := util_url_escape client.username
    let password := util_url_escape client.password
    let mount := util_url_escape auth_user.mount
    let ipaddr := util_url_escape client.con.ip
    let post := snprintf_cap 1024
      ("action=auth&server=" ++ server ++ "&client=" ++ toString client.con.id
        ++ "&mount=" ++ mount ++ "&user=" ++ username ++ "&pass=" ++ password
        ++ "&ip=" ++ ipaddr ++ "&agent=" ++ user_agent)
    let trace := [Action.acquireConfig, Action.releaseConfig,
                  Action.transportCall addurl post]
    match deliverHeaders headers ⟨auth_user.mount, some client⟩ with
    | none => none
    | some au' =>
      let client' := au'.client.getD client
      if res ≠ 0 then some ⟨AUTH_FAILED, client', some post, trace⟩
      else if client'.authenticated then
        if pp < 0 then some ⟨AUTH_FAILED, client', some post, trace⟩
        else some ⟨AUTH_OK, client', some post, trace⟩
      else some ⟨AUTH_FAILED, client', some post, trace⟩

/-- Outcome of the remove flow: result code, client state after the flow,
the POST body transmitted, the numeric value transmitted in its `duration`
field (`none` when no transport call was issued), and the action trace. -/
structure RemoveOutcome where
  result : auth_result
  client : client_t
  post : Option String
  duration_sent : Option Nat
  trace : List Action
  deriving DecidableEq, Repr

/-- The remove flow `auth_removeurl_client` (lines 119-159).  `now` is the
value of `time(NULL)`; `res` and `headers` model `curl_easy_perform` as in
the add flow.  Note the source's format string
`"action=remove&server=%sclient=%lu&..."` (line 139) and the cast
`(long unsigned)duration` (line 142). -/
def auth_removeurl_client (auth_user : auth_client) (config : ice_config_t)
    (now : Int) (res : Nat) (headers : List String) : Option RemoveOutcome :=
  match auth_user.client with
  | none => none
  | some client =>
  match client.auth with
  | none => none
  | some auth =>
  let duration : Int := now - client.con.con_time
  match auth.state.removeurl with
  | none => some ⟨AUTH_OK, client, none, none, []⟩
  | some removeurl =>
    let server := util_url_escape config.hostname
    let username := util_url_escape client.username
    let password := util_url_escape client.password
    let mount := util_url_escape auth_user.mount
    let post := snprintf_cap 1024
      ("action=remove&server=" ++ server ++ "client=" ++ toString client.con.id
        ++ "&mount=" ++ mount ++ "&user=" ++ username ++ "&pass=" ++ password
        ++ "&duration=" ++ toString (c_ulong duration))
    let trace := [Action.acquireConfig, Action.releaseConfig,
                  Action.transportCall removeurl post]
    match deliverHeaders headers ⟨auth_user.mount, some client⟩ with
    | none => none
    | some au' =>
      let client' := au'.client.getD client
      some ⟨AUTH_OK, { client' with auth := none }, some post,
            some (c_ulong duration), trace⟩

/-- Outcome of a stream-start/stream-end flow: result code, the
authenticator's reference count after the flow, the POST body transmitted
(`none` when no transport call was issued), and the action trace. -/
structure StreamOutcome where
  result : auth_result
  refcount_after : Nat
  post : Option String
  trace : List Action
  deriving DecidableEq, Repr

/-- The stream-start flow `url_stream_start` (lines 227-265).  The results
of `config_find_mount` and the `auth` field are dereferenced
unconditionally; a NULL there is undefined (`none`).  `auth_release`
decrements the reference count pinned before the config snapshot was
released. -/
def url_stream_start (auth_user : auth_client) (config : ice_config_t)
    (res : Nat) (headers : List String) : Option StreamOutcome :=
  match config_find_mount config auth_user.mount with
  | none => none
  | some mountinfo =>
  match mountinfo.auth with
  | none => none
  | some auth =>
  match auth.state.stream_start with
  | none =>
    some ⟨AUTH_OK, auth.refcount, none, [Action.acquireConfig, Action.releaseConfig]⟩
  | some stream_start_url =>
    let server := util_url_escape config.hostname
    let refcount_pinned := auth.refcount + 1
    let mount := util_url_escape auth_user.mount
    let post := snprintf_cap 4096 ("action=start&mount=" ++ mount ++ "&server=" ++ server)
    let trace := [Action.acquireConfig, Action.releaseConfig,
                  Action.transportCall stream_start_url post]
    match deliverHeaders headers auth_user with
    | none => none
    | some _ =>
      some ⟨AUTH_OK, refcount_pinned - 1, some post, trace⟩

/-- The stream-end flow `url_stream_end` (lines 268-306), identical to the
start flow up to the URL field and the `action=end` body. -/
def url_stream_end (auth_user : auth_client) (config : ice_config_t)
    (res : Nat) (headers : List String) : Option StreamOutcome :=
  match config_find_mount config auth_user.mount with
  | none => none
  | some mountinfo =>
  match mountinfo.auth with
  | none => none
  | some auth =>
  match auth.state.stream_end with
  | none =>
    some ⟨AUTH_OK, auth.refcount, none, [Action.acquireConfig, Action.releaseConfig]⟩
  | some stream_end_url =>
    let server := util_url_escape config.hostname
    let refcount_pinned := auth.refcount + 1
    let mount := util_url_escape auth_user.mount
    let post := snprintf_cap 4096 ("action=end&mount=" ++ mount ++ "&server=" ++ server)
    let trace := [Action.acquireConfig, Action.releaseConfig,
                  Action.transportCall stream_end_url post]
    match deliverHeaders headers auth_user with
    | none => none
    | some _ =>
      some ⟨AUTH_OK, refcount_pinned - 1, some post, trace⟩

/-- One step of the option-parsing loop of `auth_get_url_auth`
(lines 340-359): the independent `strcmp` chain, so a repeated key's last
occurrence wins. -/
def apply_option (st : auth_url) (nv : String × String) : auth_url :=
  let st := if nv.1 = "username" then { st with username := some nv.2 } else st
  let st := if nv.1 = "password" then { st with password := some nv.2 } else st
  let st := if nv.1 = "add" then { st with addurl := some nv.2 } else st
  let st := if nv.1 = "remove" then { st with removeurl := some nv.2 } else st
  let st := if nv.1 = "start" then { st with stream_start := some nv.2 } else st
  let st := if nv.1 = "end" then { st with stream_end := some nv.2 } else st
  if nv.1 = "header" then { st with auth_header := nv.2 } else st

/-- Registration `auth_get_url_auth` (lines 324-380) restricted to the
construction of the module state: `calloc` zero-fill, the default verdict
header installed before the option loop, and `auth_header_len` set to the
final header's length after it. -/
def auth_get_url_auth (options : List (String × String)) : auth_url :=
  let st : auth_url :=
    { addurl := none, removeurl := none, stream_start := none, stream_end := none
      username := none, password := none
      auth_header := "icecast-auth-user: 1\r\n", auth_header_len := 0 }
  let st := options.foldl apply_option st
  { st with auth_header_len := st.auth_header.length }

/-! ### Test fixtures

Concrete instances used by the concrete-input theorems: the end-to-end
scenario of the spec (§8) — authenticator configured with add/remove URLs,
username `fred`, password `hunter2`, mount `/live`, connection id 42, ip
`127.0.0.1`, user-agent `TestAgent/1.0`. -/

/-- Module state of the end-to-end scenario's authenticator. -/
def scenarioState : auth_url :=
  auth_get_url_auth
    [("add", "http://auth.example/a"), ("remove", "http://auth.example/r"),
     ("username", "fred"), ("password", "hunter2")]

/-- The end-to-end scenario's authenticator. -/
def scenarioAuth : auth_t :=
  { refcount := 1, state := scenarioState }

/-- The end-to-end scenario's client. -/
def scenarioClient : client_t :=
  { username := "fred", password := "hunter2"
    con := { id := 42, ip := "127.0.0.1", con_time := 1000 }
    user_agent := some "TestAgent/1.0", authenticated := false
    auth := some scenarioAuth }

/-- The end-to-end scenario's add/remove event context. -/
def scenarioEvent : auth_client :=
  { mount := "/live", client := some scenarioClient }

/-- The end-to-end scenario's config snapshot. -/
def scenarioConfig : ice_config_t :=
  { hostname := "example.com", mounts := [("/live", { auth := some scenarioAuth })] }

/-! ### Helper lemmas -/

theorem string_eq_of_data : ∀ {s t : String}, s.data = t.data → s = t
  | ⟨_⟩, ⟨_⟩, h => congrArg String.mk h

theorem string_data_append (s t : String) : (s ++ t).data = s.data ++ t.data := by
  cases s; cases t; rfl

theorem snprintf_cap_eq_self (n : Nat) (s : String) (h : s.data.length ≤ n - 1) :
    snprintf_cap n s = s := by
  cases s with
  | mk l => simp [snprintf_cap, List.take_of_length_le h]

theorem deliverHeaders_no_client (hs : List String) (m : String) :
    deliverHeaders hs ⟨m, none⟩ = some ⟨m, none⟩ := by
  induction hs with
  | nil => rfl
  | cons l ls ih => simpa [deliverHeaders, handle_returned_header] using ih

/-! ### Claim checkers

Decidable predicates expressing each spec claim as a property of one
flow's input/result pair, so the claim theorems quantify over all inputs
without side conditions. -/

/-- The add-flow case table of the spec (§4.5): no add-URL means immediate
`AUTH_OK` with no transport call and the client untouched; otherwise the
result is determined by the transport return code, the post-delivery
`authenticated` flag and the post-processing result. -/
def addFlowClaimOk (au : auth_client) (res : Nat) (pp : Int) (r : Option AddOutcome) : Bool :=
  match au.client with
  | none => true
  | some client =>
    match client.auth with
    | none => true
    | some auth =>
      match auth.state.addurl, r with
      | none, r => decide (r = some ⟨AUTH_OK, client, none, []⟩)
      | some _, none => true
      | some _, some o =>
        decide (o.result =
          if res ≠ 0 then AUTH_FAILED
          else if o.client.authenticated then
            if pp < 0 then AUTH_FAILED else AUTH_OK
          else AUTH_FAILED)

/-- The remove flow always yields `AUTH_OK`; with a remove-URL configured
the client's authenticator back-reference is cleared whatever the
transport outcome, and with none configured the flow is a no-op that
leaves the client (back-reference included) unchanged. -/
def removeFlowClaimOk (au : auth_client) (r : Option RemoveOutcome) : Bool :=
  match au.client with
  | none => true
  | some client =>
    match client.auth with
    | none => true
    | some auth =>
      match auth.state.removeurl, r with
      | none, r => decide (r = some ⟨AUTH_OK, client, none, none, []⟩)
      | some _, none => true
      | some _, some o => decide (o.result = AUTH_OK) && decide (o.client.auth = none)

/-- The duration field transmitted by the remove flow is the C cast
`(long unsigned)(now - con_time)`, i.e. the difference reduced modulo
`2 ^ 64`. -/
def removeDurationClaimOk (now : Int) (au : auth_client) (r : Option RemoveOutcome) : Bool :=
  match au.client, r with
  | some client, some o =>
    match o.duration_sent with
    | none => true
    | some d => decide (d = c_ulong (now - client.con.con_time))
  | _, _ => true

/-- The stream flows leave the reference count of the mountpoint's
authenticator (as found in the config snapshot) unchanged. -/
def streamRefcountClaimOk (au : auth_client) (config : ice_config_t)
    (r : Option StreamOutcome) : Bool :=
  match config_find_mount config au.mount with
  | none => true
  | some mountinfo =>
    match mountinfo.auth with
    | none => true
    | some auth =>
      match r with
      | none => true
      | some o => decide (o.refcount_after = auth.refcount)

/-- A flow result's trace obeys the config-snapshot discipline. -/
def addTraceOk : Option AddOutcome → Bool
  | none => true
  | some o => configSafe o.trace

/-- A remove-flow result's trace obeys the config-snapshot discipline. -/
def removeTraceOk : Option RemoveOutcome → Bool
  | none => true
  | some o => configSafe o.trace

/-- A stream-flow result's trace obeys the config-snapshot discipline. -/
def streamTraceOk : Option StreamOutcome → Bool
  | none => true
  | some o => configSafe o.trace

/-- The precondition under which the stream flows' unconditional
dereferences are defined: the mountpoint is present in the snapshot and
carries a non-null authenticator. -/
def streamPrecondition (config : ice_config_t) (mount : String) : Bool :=
  match config_find_mount config mount with
  | none => false
  | some mountinfo => mountinfo.auth.isSome

/-! ### Claim theorems -/

/-- C1: the add flow returns `AUTH_OK` immediately (no transport call)
when no add-URL is configured; otherwise it returns `AUTH_FAILED` when the
transport call fails, `AUTH_FAILED` when it succeeds but the client's
`authenticated` flag is not set, `AUTH_FAILED` when the flag is set but
post-processing is negative, and `AUTH_OK` when the flag is set and
post-processing succeeds. -/
theorem auth_addurl_client_case_table (au : auth_client) (config : ice_config_t)
    (res : Nat) (hs : List String) (pp : Int) :
    addFlowClaimOk au res pp (auth_addurl_client au config res hs pp) = true := by
  obtain ⟨m, cl⟩ := au
  cases cl with
  | none => rfl
  | some client =>
    cases hc : client.auth with
    | none => simp [addFlowClaimOk, auth_addurl_client, hc]
    | some auth =>
      cases ha : auth.state.addurl with
      | none => simp [addFlowClaimOk, auth_addurl_client, hc, ha]
      | some u =>
        simp only [addFlowClaimOk, auth_addurl_client, hc, ha]
        cases hd : deliverHeaders hs ⟨m, some client⟩ with
        | none => rfl
        | some au' =>
          by_cases hres : res = 0 <;>
            by_cases hflag : (au'.client.getD client).authenticated <;>
              by_cases hpp : pp < 0 <;>
                simp [hres, hflag, hpp]

/-- An authenticator whose options configure no remove-URL (used to
exercise the remove flow's unconfigured path). -/
def noRemoveAuth : auth_t :=
  { refcount := 1, state := auth_get_url_auth [("add", "http://auth.example/a")] }

/-- A client attached to `noRemoveAuth`. -/
def noRemoveClient : client_t :=
  { username := "fred", password := "hunter2"
    con := { id := 7, ip := "127.0.0.1", con_time := 1000 }
    user_agent := none, authenticated := true
    auth := some noRemoveAuth }

/-- C3 counterexample: with no remove-URL configured the remove flow
returns `AUTH_OK` without touching the client, so the client's
authenticator back-reference is still non-null after the flow — the
claim's "client->auth is null ... including when no remove-URL is
configured" fails on this input. -/
theorem auth_removeurl_client_no_url_keeps_backref :
    auth_removeurl_client ⟨"/live", some noRemoveClient⟩ scenarioConfig 4600 0 [] =
      some ⟨AUTH_OK, noRemoveClient, none, none, []⟩
    ∧ noRemoveClient.auth ≠ none := by
  exact ⟨rfl, by decide⟩

/-- C3 (amended): the remove flow returns `AUTH_OK` whatever the transport
outcome; when a remove-URL is configured the client's authenticator
back-reference is null after the flow (transport failure included), and
when none is configured the flow returns `AUTH_OK` immediately with the
client — back-reference included — unchanged. -/
theorem auth_removeurl_client_always_ok (au : auth_client) (config : ice_config_t)
    (now : Int) (res : Nat) (hs : List String) :
    removeFlowClaimOk au (auth_removeurl_client au config now res hs) = true := by
  obtain ⟨m, cl⟩ := au
  cases cl with
  | none => rfl
  | some client =>
    cases hc : client.auth with
    | none => simp [removeFlowClaimOk, auth_removeurl_client, hc]
    | some auth =>
      cases ha : auth.state.removeurl with
      | none => simp [removeFlowClaimOk, auth_removeurl_client, hc, ha]
      | some u =>
        simp only [removeFlowClaimOk, auth_removeurl_client, hc, ha]
        cases hd : deliverHeaders hs ⟨m, some client⟩ with
        | none => rfl
        | some au' => simp

/-- C5: after a stream-start or stream-end flow the reference count of the
mountpoint's authenticator equals its value before the flow — the pin and
the unpin are balanced — whether the transport call succeeds or fails and
whether or not a start/end URL is configured. -/
theorem url_stream_refcount_balanced (au : auth_client) (config : ice_config_t)
    (res : Nat) (hs : List String) :
    streamRefcountClaimOk au config (url_stream_start au config res hs) = true
    ∧ streamRefcountClaimOk au config (url_stream_end au config res hs) = true := by
  constructor <;>
  · cases hm : config_find_mount config au.mount with
    | none =>
      simp [streamRefcountClaimOk, url_stream_start, url_stream_end, hm]
    | some mountinfo =>
      cases hauth : mountinfo.auth with
      | none => simp [streamRefcountClaimOk, url_stream_start, url_stream_end, hm, hauth]
      | some auth =>
        simp only [streamRefcountClaimOk, url_stream_start, url_stream_end, hm, hauth]
        first
        | cases hss : auth.state.stream_start with
          | none => simp
          | some u =>
            cases hd : deliverHeaders hs au with
            | none => rfl
            | some au' => simp
        | cases hss : auth.state.stream_end with
          | none => simp
          | some u =>
            cases hd : deliverHeaders hs au with
            | none => rfl
            | some au' => simp

/-- C7 counterexample: a client whose connection-start time lies in the
future (clock skew), so `now - con_time` is negative. -/
def skewClient : client_t :=
  { username := "fred", password := "hunter2"
    con := { id := 7, ip := "127.0.0.1", con_time := 10 }
    user_agent := none, authenticated := true
    auth := some scenarioAuth }

/-- C7 counterexample: at `now = 5` with connection-start time 10 the
remove flow transmits duration `2 ^ 64 - 5 = 18446744073709551611`, the
wrapped unsigned value of `-5`, not the claimed clamped value `0`. -/
theorem auth_removeurl_duration_wraps :
    (auth_removeurl_client ⟨"/live", some skewClient⟩ scenarioConfig 5 0 []).map
        RemoveOutcome.duration_sent = some (some 18446744073709551611)
    ∧ (18446744073709551611 : Nat) ≠ 0 := by
  exact ⟨rfl, by decide⟩

/-- C7 (amended): the duration transmitted by the remove flow is
`now - con_time` reduced modulo `2 ^ 64` (the C cast `(long unsigned)`):
it equals the integer-second difference whenever that difference is
non-negative (and below `2 ^ 64`), but a momentarily negative difference
wraps to a huge unsigned value instead of being clamped to 0. -/
theorem auth_removeurl_duration_cast (au : auth_client) (config : ice_config_t)
    (now : Int) (res : Nat) (hs : List String) :
    removeDurationClaimOk now au (auth_removeurl_client au config now res hs) = true := by
  obtain ⟨m, cl⟩ := au
  cases cl with
  | none => rfl
  | some client =>
    cases hc : client.auth with
    | none => simp [removeDurationClaimOk, auth_removeurl_client, hc]
    | some auth =>
      cases ha : auth.state.removeurl with
      | none => simp [removeDurationClaimOk, auth_removeurl_client, hc, ha]
      | some u =>
        simp only [removeDurationClaimOk, auth_removeurl_client, hc, ha]
        cases hd : deliverHeaders hs ⟨m, some client⟩ with
        | none => rfl
        | some au' => simp [removeDurationClaimOk]

/-- C8: in every event flow the config snapshot is acquired and released
in a balanced way on every exit path, and it is never held when the
blocking transport call is issued. -/
theorem config_snapshot_discipline (au : auth_client) (config : ice_config_t)
    (now : Int) (res : Nat) (hs : List String) (pp : Int) :
    addTraceOk (auth_addurl_client au config res hs pp) = true
    ∧ removeTraceOk (auth_removeurl_client au config now res hs) = true
    ∧ streamTraceOk (url_stream_start au config res hs) = true
    ∧ streamTraceOk (url_stream_end au config res hs) = true := by
  refine ⟨?_, ?_, ?_, ?_⟩
  · obtain ⟨m, cl⟩ := au
    cases cl with
    | none => rfl
    | some client =>
      cases hc : client.auth with
      | none => simp [addTraceOk, auth_addurl_client, hc]
      | some auth =>
        cases ha : auth.state.addurl with
        | none => simp [addTraceOk, auth_addurl_client, hc, ha, configSafe, checkTrace]
        | some u =>
          simp only [addTraceOk, auth_addurl_client, hc, ha]
          cases hd : deliverHeaders hs ⟨m, some client⟩ with
          | none => rfl
          | some au' =>
            by_cases hres : res = 0 <;>
              by_cases hflag : (au'.client.getD client).authenticated <;>
                by_cases hpp : pp < 0 <;>
                  simp [hres, hflag, hpp, configSafe, checkTrace]
  · obtain ⟨m, cl⟩ := au
    cases cl with
    | none => rfl
    | some client =>
      cases hc : client.auth with
      | none => simp [removeTraceOk, auth_removeurl_client, hc]
      | some auth =>
        cases ha : auth.state.removeurl with
        | none => simp [removeTraceOk, auth_removeurl_client, hc, ha, configSafe, checkTrace]
        | some u =>
          simp only [removeTraceOk, auth_removeurl_client, hc, ha]
          cases hd : deliverHeaders hs ⟨m, some client⟩ with
          | none => rfl
          | some au' => simp [configSafe, checkTrace]
  · cases hm : config_find_mount config au.mount with
    | none => simp [streamTraceOk, url_stream_start, hm]
    | some mountinfo =>
      cases hauth : mountinfo.auth with
      | none => simp [streamTraceOk, url_stream_start, hm, hauth]
      | some auth =>
        simp only [streamTraceOk, url_stream_start, hm, hauth]
        cases hss : auth.state.stream_start with
        | none => simp [configSafe, checkTrace]
        | some u =>
          cases hd : deliverHeaders hs au with
          | none => rfl
          | some au' => simp [configSafe, checkTrace]
  · cases hm : config_find_mount config au.mount with
    | none => simp [streamTraceOk, url_stream_end, hm]
    | some mountinfo =>
      cases hauth : mountinfo.auth with
      | none => simp [streamTraceOk, url_stream_end, hm, hauth]
      | some auth =>
        simp only [streamTraceOk, url_stream_end, hm, hauth]
        cases hss : auth.state.stream_end with
        | none => simp [configSafe, checkTrace]
        | some u =>
          cases hd : deliverHeaders hs au with
          | none => rfl
          | some au' => simp [configSafe, checkTrace]

/-- C9: for a stream event (no client in the context) the stream-start and
stream-end flows are defined exactly when the event's mountpoint is
present in the config snapshot with a non-null authenticator; for a
mountpoint absent from the snapshot the lookup yields none and the
unconditional dereference is undefined. -/
theorem url_stream_totality (au : auth_client) (config : ice_config_t)
    (res : Nat) (hs : List String) (hcl : au.client = none) :
    (url_stream_start au config res hs).isSome = streamPrecondition config au.mount
    ∧ (url_stream_end au config res hs).isSome = streamPrecondition config au.mount := by
  obtain ⟨m, cl⟩ := au
  simp only at hcl
  subst hcl
  constructor <;>
  · cases hm : config_find_mount config m with
    | none =>
      simp [streamPrecondition, url_stream_start, url_stream_end, hm]
    | some mountinfo =>
      cases hauth : mountinfo.auth with
      | none => simp [streamPrecondition, url_stream_start, url_stream_end, hm, hauth]
      | some auth =>
        simp only [streamPrecondition, url_stream_start, url_stream_end, hm, hauth]
        first
        | cases hss : auth.state.stream_start with
          | none => simp
          | some u => simp [deliverHeaders_no_client]
        | cases hss : auth.state.stream_end with
          | none => simp
          | some u => simp [deliverHeaders_no_client]

/-- C9 witness: for the `/live` mount of the scenario config (present,
with a non-null authenticator) both flows are defined. -/
theorem url_stream_totality_witness :
    (url_stream_start ⟨"/live", none⟩ scenarioConfig 0 []).isSome =
      streamPrecondition scenarioConfig "/live"
    ∧ (url_stream_end ⟨"/live", none⟩ scenarioConfig 0 []).isSome =
      streamPrecondition scenarioConfig "/live" :=
  url_stream_totality ⟨"/live", none⟩ scenarioConfig 0 [] rfl

/-- The expected-header prefix as the claim states it (the spec's words):
`"icecast-auth-user: 1"`, without the trailing CRLF the code's default
carries. -/
def spec_default_expected_header : String := "icecast-auth-user: 1"

/-- C4 counterexample: under the default configuration the header line
`"icecast-auth-user: 1"` — which case-insensitively matches the claim's
stated default prefix, indeed equals it — does not set the `authenticated`
flag, because the code's installed default is `"icecast-auth-user: 1\r\n"`
and the comparison runs over its full 22 characters. -/
theorem handle_returned_header_default_mismatch :
    strncaseeq "icecast-auth-user: 1".data spec_default_expected_header.data
        spec_default_expected_header.length = true
    ∧ handle_returned_header 1 20 "icecast-auth-user: 1" ⟨"/live", some scenarioClient⟩ =
        some (⟨"/live", some scenarioClient⟩, 20)
    ∧ scenarioClient.authenticated = false := by
  exact ⟨by decide, rfl, rfl⟩

/-- C4 (amended): during an add or remove event the header callback sets
the correlated client's `authenticated` flag exactly when the line
case-insensitively matches the first `auth_header_len` characters of the
configured expected header, whose default — as installed by registration —
is `"icecast-auth-user: 1\r\n"` (CRLF included); a non-matching line
leaves the event context unchanged. -/
theorem handle_returned_header_verdict (size nmemb : Nat) (line m : String)
    (c : client_t) (a : auth_t) (hc : c.auth = some a) :
    handle_returned_header size nmemb line ⟨m, some c⟩ =
      some (⟨m, some (if strncaseeq line.data a.state.auth_header.data a.state.auth_header_len
                      then { c with authenticated := true } else c)⟩,
            c_int_of_uint (size * nmemb % 4294967296))
    ∧ (auth_get_url_auth []).auth_header = "icecast-auth-user: 1\r\n" := by
  refine ⟨?_, rfl⟩
  simp only [handle_returned_header, hc]
  split <;> simp_all

/-- C4 witness: a case-insensitive variant of the full default header line
sets the flag of the scenario client. -/
theorem handle_returned_header_verdict_witness :
    handle_returned_header 1 22 "ICEcast-Auth-User: 1\r\n" ⟨"/live", some scenarioClient⟩ =
      some (⟨"/live", some (if strncaseeq "ICEcast-Auth-User: 1\r\n".data
                    scenarioAuth.state.auth_header.data scenarioAuth.state.auth_header_len
                  then { scenarioClient with authenticated := true } else scenarioClient)⟩,
            c_int_of_uint (1 * 22 % 4294967296))
    ∧ (auth_get_url_auth []).auth_header = "icecast-auth-user: 1\r\n" :=
  handle_returned_header_verdict 1 22 "ICEcast-Auth-User: 1\r\n" "/live"
    scenarioClient scenarioAuth rfl

/-- `(int)b` is the identity below `2 ^ 31`. -/
theorem c_int_of_uint_small (b : Nat) (h : b < 2147483648) : c_int_of_uint b = (b : Int) := by
  have h2 : b % 4294967296 = b := Nat.mod_eq_of_lt (by omega)
  simp [c_int_of_uint, h2, h]

/-- C10: a header line delivered with no client in the event context (the
stream-start/stream-end case) modifies no state, and in every case —
client present or absent, line matching or not — the callback returns the
full byte count `size * nmemb`, so the transfer is never aborted by the
callback. -/
theorem handle_returned_header_frame (size nmemb : Nat) (line m : String)
    (c : client_t) (a : auth_t) (hb : size * nmemb < 2147483648) (hc : c.auth = some a) :
    handle_returned_header size nmemb line ⟨m, none⟩ =
      some (⟨m, none⟩, ((size * nmemb : Nat) : Int))
    ∧ (handle_returned_header size nmemb line ⟨m, some c⟩).map Prod.snd =
        some ((size * nmemb : Nat) : Int) := by
  have hmod : size * nmemb % 4294967296 = size * nmemb := Nat.mod_eq_of_lt (by omega)
  constructor
  · simp [handle_returned_header, hmod, c_int_of_uint_small _ hb]
  · simp only [handle_returned_header, hc, hmod, c_int_of_uint_small _ hb]
    split <;> simp

/-- C10 witness: a 20-byte line with and without a client present. -/
theorem handle_returned_header_frame_witness :
    handle_returned_header 1 20 "x" ⟨"/live", none⟩ =
      some (⟨"/live", none⟩, ((1 * 20 : Nat) : Int))
    ∧ (handle_returned_header 1 20 "x" ⟨"/live", some scenarioClient⟩).map Prod.snd =
        some ((1 * 20 : Nat) : Int) :=
  handle_returned_header_frame 1 20 "x" "/live" scenarioClient scenarioAuth (by decide) rfl

/-- C2 / code defect: the remove POST body the code builds for the
scenario remove event fuses the `server` and `client` fields into
`server=example.comclient=42` — the format string at line 139 omits the
`&` separator — so the transmitted body differs from the well-formed
`&`-delimited body the claim (and the module's own header comment)
describe. -/
theorem auth_removeurl_post_missing_separator :
    (auth_removeurl_client scenarioEvent scenarioConfig 4600 0 []).map RemoveOutcome.post =
      some (some "action=remove&server=example.comclient=42&mount=%2Flive&user=fred&pass=hunter2&duration=3600")
    ∧ "action=remove&server=example.comclient=42&mount=%2Flive&user=fred&pass=hunter2&duration=3600"
        ≠ "action=remove&server=example.com&client=42&mount=%2Flive&user=fred&pass=hunter2&duration=3600" := by
  exact ⟨rfl, by decide⟩

/-- Fusing the concrete field literals of the add body around the abstract
escaped hostname. -/
theorem add_body_collapse (S : String) :
    "action=auth&server=" ++ S ++ "&client=" ++ "42" ++ "&mount=" ++ "%2Flive" ++ "&user=" ++
        "fred" ++ "&pass=" ++ "hunter2" ++ "&ip=" ++ "127.0.0.1" ++ "&agent=" ++
        "TestAgent%2F1.0" =
      "action=auth&server=" ++ S ++
        "&client=42&mount=%2Flive&user=fred&pass=hunter2&ip=127.0.0.1&agent=TestAgent%2F1.0" := by
  apply string_eq_of_data
  simp only [string_data_append, List.append_assoc]
  congr 2

/-- C6: for the scenario add event (connection id 42, ip `127.0.0.1`,
user-agent `TestAgent/1.0`, mount `/live`, user `fred`, password
`hunter2`) the POST body is exactly
`action=auth&server=<escaped-host>&client=42&mount=%2Flive&user=fred&pass=hunter2&ip=127.0.0.1&agent=TestAgent%2F1.0`,
every field escaped via the escaper before substitution, provided the
escaped hostname leaves the body inside the 1024-byte buffer. -/
theorem auth_addurl_post_body (config : ice_config_t) (res : Nat) (pp : Int)
    (hlen : (util_url_escape config.hostname).data.length ≤ 922) :
    (auth_addurl_client scenarioEvent config res [] pp).map AddOutcome.post =
      some (some ("action=auth&server=" ++ util_url_escape config.hostname ++
        "&client=42&mount=%2Flive&user=fred&pass=hunter2&ip=127.0.0.1&agent=TestAgent%2F1.0")) := by
  have hbody :
      "action=auth&server=" ++ util_url_escape config.hostname ++ "&client=" ++
          toString (42 : Nat) ++ "&mount=" ++ util_url_escape "/live" ++ "&user=" ++
          util_url_escape "fred" ++ "&pass=" ++ util_url_escape "hunter2" ++ "&ip=" ++
          util_url_escape "127.0.0.1" ++ "&agent=" ++ util_url_escape "TestAgent/1.0" =
        "action=auth&server=" ++ util_url_escape config.hostname ++
          "&client=42&mount=%2Flive&user=fred&pass=hunter2&ip=127.0.0.1&agent=TestAgent%2F1.0" := by
    rw [show toString (42 : Nat) = "42" from rfl,
        show util_url_escape "/live" = "%2Flive" from rfl,
        show util_url_escape "fred" = "fred" from rfl,
        show util_url_escape "hunter2" = "hunter2" from rfl,
        show util_url_escape "127.0.0.1" = "127.0.0.1" from rfl,
        show util_url_escape "TestAgent/1.0" = "TestAgent%2F1.0" from rfl]
    exact add_body_collapse (util_url_escape config.hostname)
  have hcap :
      snprintf_cap 1024
          ("action=auth&server=" ++ util_url_escape config.hostname ++
            "&client=42&mount=%2Flive&user=fred&pass=hunter2&ip=127.0.0.1&agent=TestAgent%2F1.0") =
        "action=auth&server=" ++ util_url_escape config.hostname ++
          "&client=42&mount=%2Flive&user=fred&pass=hunter2&ip=127.0.0.1&agent=TestAgent%2F1.0" := by
    apply snprintf_cap_eq_self
    simp only [string_data_append, List.length_append, List.length_cons, List.length_nil]
    omega
  simp only [auth_addurl_client, scenarioEvent, scenarioClient]
  rw [show scenarioAuth.state.addurl = some "http://auth.example/a" from rfl]
  simp only [deliverHeaders, Option.getD_some]
  simp only [hbody, hcap]
  by_cases hres : res = 0 <;> simp [hres]

/-- C6 witness: with hostname `example.com` (escaped form 11 characters)
the body is the expected string. -/
theorem auth_addurl_post_body_witness :
    (auth_addurl_client scenarioEvent scenarioConfig 0 [] 0).map AddOutcome.post =
      some (some ("action=auth&server=" ++ util_url_escape scenarioConfig.hostname ++
        "&client=42&mount=%2Flive&user=fred&pass=hunter2&ip=127.0.0.1&agent=TestAgent%2F1.0")) :=
  auth_addurl_post_body scenarioConfig 0 0 (by decide)

end AuthUrl
